import Mathlib

/-!
Verification of the element-resolution and interaction layer of the
Hudl-Login browser test harness, as a shallow embedding in Lean.

The embedding follows the Python sources:
  * `src/pages/base_page.py`  (BasePage: finds, clicks, reads, predicates,
    fallback locator methods),
  * `src/pages/login_page.py` (LoginPage: redirect verification,
    error-message retrieval, locator fallback with an action),
  * `src/features/environment.py` (scenario lifecycle hooks and metrics),
  * `src/utils/driver_manager.py` (driver teardown).

Browser effects are modelled by explicit parameters: a resolution attempt
for one locator is an `Except String α` (the `error` case standing for the
raised Selenium exception, carried as its message), element state is a
structure, and per-attempt click behaviour is a function from the attempt
index to an outcome.
-/

namespace HudlLogin

/-- A Selenium locator: a `(By strategy, value)` pair, the unit of the
fallback chain (`ElementLocator` entries in the spec). -/
structure Locator where
  strategy : String
  value : String
deriving DecidableEq

/-- One resolved element, as far as the modelled operations inspect it:
its text content and its attribute map (`get_attribute` returns `None`
for an absent attribute, modelled as `Option.none`). -/
structure WebElem where
  textContent : String
  attrs : String → Option String

/-! ## base_page.find_element_with_fallback (base_page.py lines 484-500)

`find` models `self.find_element(locator, timeout=timeout)` for the fixed
per-strategy timeout: `ok` when the wait resolves an element, `error` when
it raises (`TimeoutException` or any other exception; the Python `except
Exception` catches them all alike). -/

/-- `BasePage.find_element_with_fallback`: try each locator in order,
return the first resolved element, `None` when every locator fails. -/
def find_element_with_fallback {α : Type} (find : Locator → Except String α) :
    List Locator → Option α
  | [] => none
  | l :: ls =>
    match find l with
    | Except.ok e => some e
    | Except.error _ => find_element_with_fallback find ls

/-- Instrumentation of `find_element_with_fallback`: the list of locators
the loop actually attempts (each loop iteration calls `find_element`
exactly once, so the attempted locators are the failing prefix plus, when
one succeeds, the succeeding locator). -/
def fallbackAttempts {α : Type} (find : Locator → Except String α) :
    List Locator → List Locator
  | [] => []
  | l :: ls =>
    match find l with
    | Except.ok _ => [l]
    | Except.error _ => l :: fallbackAttempts find ls

/-! ## login_page._try_locators_with_action (login_page.py lines 549-571)

`action` models `action_func(locator, *args)`: `ok ()` when the action
succeeds, `error` when it raises. On exhaustion the Python code raises
`Exception(f"Could not find {field_name} with any of the available
locators")`. -/

/-- The message of the exception `_try_locators_with_action` raises when
every locator fails: it names the field, and nothing else. -/
def couldNotFindMsg (field_name : String) : String :=
  "Could not find " ++ field_name ++ " with any of the available locators"

/-- `LoginPage._try_locators_with_action`: run the action on each locator
in order, return on the first success, raise a generic message when all
locators fail. -/
def try_locators_with_action (action : Locator → Except String Unit)
    (field_name : String) : List Locator → Except String Unit
  | [] => Except.error (couldNotFindMsg field_name)
  | l :: ls =>
    match action l with
    | Except.ok _ => Except.ok ()
    | Except.error _ => try_locators_with_action action field_name ls

/-- Instrumentation of `_try_locators_with_action`: the locators the loop
actually attempts. -/
def tryLocatorsAttempts (action : Locator → Except String Unit) :
    List Locator → List Locator
  | [] => []
  | l :: ls =>
    match action l with
    | Except.ok _ => [l]
    | Except.error _ => l :: tryLocatorsAttempts action ls

lemma fallback_ok_at {α : Type} (find : Locator → Except String α) :
    ∀ (ls : List Locator) (i : Nat) (hi : i < ls.length) (e : α),
      (∀ j (hj : j < i), ∃ err, find (ls.get ⟨j, hj.trans hi⟩) = Except.error err) →
      find (ls.get ⟨i, hi⟩) = Except.ok e →
      find_element_with_fallback find ls = some e ∧
        fallbackAttempts find ls = ls.take (i + 1) := by
  intro ls
  induction ls with
  | nil => intro i hi; exact absurd hi (by simp)
  | cons a tl ih =>
    intro i hi e hfail hok
    cases i with
    | zero =>
      simp only [List.get] at hok
      refine ⟨?_, ?_⟩ <;>
        simp [find_element_with_fallback, fallbackAttempts, hok]
    | succ i' =>
      obtain ⟨err, herr⟩ := hfail 0 (Nat.succ_pos i')
      simp only [List.get] at herr
      have hi' : i' < tl.length := Nat.lt_of_succ_lt_succ hi
      simp only [List.get] at hok
      have ih' := ih i' hi' e
        (fun j hj => hfail (j + 1) (Nat.succ_lt_succ hj)) hok
      refine ⟨?_, ?_⟩ <;>
        simp [find_element_with_fallback, fallbackAttempts, herr, ih'.1, ih'.2]

lemma try_locators_ok_at (action : Locator → Except String Unit)
    (field_name : String) :
    ∀ (ls : List Locator) (i : Nat) (hi : i < ls.length),
      (∀ j (hj : j < i), ∃ err, action (ls.get ⟨j, hj.trans hi⟩) = Except.error err) →
      action (ls.get ⟨i, hi⟩) = Except.ok () →
      try_locators_with_action action field_name ls = Except.ok () ∧
        tryLocatorsAttempts action ls = ls.take (i + 1) := by
  intro ls
  induction ls with
  | nil => intro i hi; exact absurd hi (by simp)
  | cons a tl ih =>
    intro i hi hfail hok
    cases i with
    | zero =>
      simp only [List.get] at hok
      refine ⟨?_, ?_⟩ <;>
        simp [try_locators_with_action, tryLocatorsAttempts, hok]
    | succ i' =>
      obtain ⟨err, herr⟩ := hfail 0 (Nat.succ_pos i')
      simp only [List.get] at herr
      have hi' : i' < tl.length := Nat.lt_of_succ_lt_succ hi
      simp only [List.get] at hok
      have ih' := ih i' hi'
        (fun j hj => hfail (j + 1) (Nat.succ_lt_succ hj)) hok
      refine ⟨?_, ?_⟩ <;>
        simp [try_locators_with_action, tryLocatorsAttempts, herr, ih'.1, ih'.2]

/-- C1: for a locator list in which every strategy before index `i` fails
and the strategy at `i` succeeds, `find_element_with_fallback` returns the
element resolved by strategy `i` and `_try_locators_with_action` returns
success, and both attempt exactly the first `i + 1` strategies — the
strategies after index `i` are never tried. -/
theorem fallback_uses_first_succeeding_strategy {α : Type}
    (find : Locator → Except String α) (action : Locator → Except String Unit)
    (field_name : String) (ls : List Locator) (i : Nat) (e : α)
    (hi : i < ls.length)
    (hfail : ∀ j (hj : j < i), ∃ err, find (ls.get ⟨j, hj.trans hi⟩) = Except.error err)
    (hok : find (ls.get ⟨i, hi⟩) = Except.ok e)
    (hfailA : ∀ j (hj : j < i), ∃ err, action (ls.get ⟨j, hj.trans hi⟩) = Except.error err)
    (hokA : action (ls.get ⟨i, hi⟩) = Except.ok ()) :
    find_element_with_fallback find ls = some e ∧
      fallbackAttempts find ls = ls.take (i + 1) ∧
      try_locators_with_action action field_name ls = Except.ok () ∧
      tryLocatorsAttempts action ls = ls.take (i + 1) := by
  obtain ⟨h1, h2⟩ := fallback_ok_at find ls i hi e hfail hok
  obtain ⟨h3, h4⟩ := try_locators_ok_at action field_name ls i hi hfailA hokA
  exact ⟨h1, h2, h3, h4⟩

/-- Witness for C1: two concrete strategies, the first failing with a
timeout and the second resolving element `42`; resolution succeeds with
the later strategy and stops there. -/
theorem fallback_uses_first_succeeding_strategy_witness :
    find_element_with_fallback
        (fun l => if l.strategy = "name" then Except.error "TimeoutException"
                  else (Except.ok 42 : Except String Nat))
        [⟨"name", "username"⟩, ⟨"id", "username"⟩] = some 42 ∧
      fallbackAttempts
        (fun l => if l.strategy = "name" then Except.error "TimeoutException"
                  else (Except.ok 42 : Except String Nat))
        [⟨"name", "username"⟩, ⟨"id", "username"⟩] =
        List.take 2 [⟨"name", "username"⟩, ⟨"id", "username"⟩] ∧
      try_locators_with_action
        (fun l => if l.strategy = "name" then Except.error "TimeoutException"
                  else Except.ok ())
        "Email entry" [⟨"name", "username"⟩, ⟨"id", "username"⟩] = Except.ok () ∧
      tryLocatorsAttempts
        (fun l => if l.strategy = "name" then Except.error "TimeoutException"
                  else Except.ok ())
        [⟨"name", "username"⟩, ⟨"id", "username"⟩] =
        List.take 2 [⟨"name", "username"⟩, ⟨"id", "username"⟩] :=
  fallback_uses_first_succeeding_strategy
    (fun l => if l.strategy = "name" then Except.error "TimeoutException"
              else (Except.ok 42 : Except String Nat))
    (fun l => if l.strategy = "name" then Except.error "TimeoutException"
              else Except.ok ())
    "Email entry" [⟨"name", "username"⟩, ⟨"id", "username"⟩] 1 42
    (by decide)
    (fun j hj => by
      have hj0 : j = 0 := by omega
      subst hj0; exact ⟨"TimeoutException", rfl⟩)
    rfl
    (fun j hj => by
      have hj0 : j = 0 := by omega
      subst hj0; exact ⟨"TimeoutException", rfl⟩)
    rfl

/-- C2 counterexample: when every strategy fails,
`find_element_with_fallback` returns `None` — a success-shaped empty
result, not an error — and `_try_locators_with_action` raises an error
value that is identical for two different attempted strategy lists, so
the error carries neither the attempted strategies nor their individual
failures. -/
theorem fallback_exhaustion_counterexample :
    find_element_with_fallback
        (fun _ => (Except.error "TimeoutException" : Except String Nat))
        [⟨"name", "username"⟩, ⟨"id", "username"⟩] = none ∧
      try_locators_with_action (fun _ => Except.error "TimeoutException")
        "Email entry" [⟨"name", "username"⟩] =
      try_locators_with_action (fun _ => Except.error "TimeoutException")
        "Email entry" [⟨"name", "username"⟩, ⟨"id", "username"⟩] :=
  ⟨rfl, rfl⟩

/-- C2 as amended: when no strategy resolves within its per-strategy
timeout, `find_element_with_fallback` returns `None` (no element, no
error) and `_try_locators_with_action` raises an exception whose message
names only the field, independent of the attempted strategies and their
failures. -/
theorem fallback_exhaustion_returns_none (find : Locator → Except String Nat)
    (action : Locator → Except String Unit) (field_name : String)
    (ls ls2 : List Locator)
    (hf : ∀ l ∈ ls, ∃ err, find l = Except.error err)
    (ha : ∀ l ∈ ls2, ∃ err, action l = Except.error err) :
    find_element_with_fallback find ls = none ∧
      try_locators_with_action action field_name ls2 =
        Except.error (couldNotFindMsg field_name) := by
  constructor
  · induction ls with
    | nil => rfl
    | cons a tl ih =>
      obtain ⟨err, herr⟩ := hf a (by simp)
      simp [find_element_with_fallback, herr,
        ih (fun l hl => hf l (by simp [hl]))]
  · induction ls2 with
    | nil => rfl
    | cons a tl ih =>
      obtain ⟨err, herr⟩ := ha a (by simp)
      simp [try_locators_with_action, herr,
        ih (fun l hl => ha l (by simp [hl]))]

/-- Witness for the amended C2: with two concrete strategies both timing
out, the fallback finder returns `None` and the action runner raises the
generic field message. -/
theorem fallback_exhaustion_returns_none_witness :
    find_element_with_fallback
        (fun _ => (Except.error "TimeoutException" : Except String Nat))
        [⟨"name", "username"⟩, ⟨"id", "username"⟩] = none ∧
      try_locators_with_action (fun _ => Except.error "TimeoutException")
        "Password entry" [⟨"name", "password"⟩, ⟨"id", "password"⟩] =
        Except.error (couldNotFindMsg "Password entry") :=
  fallback_exhaustion_returns_none
    (fun _ => (Except.error "TimeoutException" : Except String Nat))
    (fun _ => Except.error "TimeoutException") "Password entry"
    [⟨"name", "username"⟩, ⟨"id", "username"⟩]
    [⟨"name", "password"⟩, ⟨"id", "password"⟩]
    (fun _ _ => ⟨"TimeoutException", rfl⟩)
    (fun _ _ => ⟨"TimeoutException", rfl⟩)

/-! ## base_page.click_element and _click_with_retry (base_page.py lines 111-141)

`click_element` resolves a clickable element once (`find_clickable_element`)
and hands the resolved handle to `_click_with_retry`. The retry loop runs
`element.click()` up to `max_attempts` times on that same handle:
a `StaleElementReferenceException` on the last attempt is re-raised,
otherwise the loop sleeps briefly and clicks the same handle again;
an `ElementNotInteractableException` triggers one JavaScript click.
The behaviour of `element.click()` on the k-th call is modelled by
`beh k`, and the JavaScript click by `jsClick`. -/

/-- Outcome of one `element.click()` call. -/
inductive ClickOutcome
  | success
  | stale
  | notInteractable
deriving DecidableEq

/-- The loop body of `_click_with_retry`: `attempt` is the Python loop
counter, `rem + 1` the number of loop iterations still available
(`attempt + remaining = max_attempts`, so `rem = 0` exactly on the last
attempt, where the stale exception is re-raised). A remaining count of
`0` corresponds to falling off the `for` loop, which returns `None`. -/
def click_with_retry_loop (beh : Nat → ClickOutcome)
    (jsClick : Except String Unit) : Nat → Nat → Except String Unit
  | _, 0 => Except.ok ()
  | attempt, rem + 1 =>
    match beh attempt with
    | ClickOutcome.success => Except.ok ()
    | ClickOutcome.stale =>
      if rem = 0 then Except.error "StaleElementReferenceException"
      else click_with_retry_loop beh jsClick (attempt + 1) rem
    | ClickOutcome.notInteractable => jsClick

/-- `BasePage._click_with_retry` with explicit `max_attempts` (the source
default is 3). -/
def click_with_retry (beh : Nat → ClickOutcome) (jsClick : Except String Unit)
    (max_attempts : Nat) : Except String Unit :=
  click_with_retry_loop beh jsClick 0 max_attempts

/-- Events observable during `click_element`: a call to
`find_clickable_element` (element resolution), a call to
`element.click()` with its attempt index, a JavaScript fallback click,
and the `time.sleep(0.5)` between stale retries. -/
inductive ClickEvent
  | resolveClickable
  | clickAttempt (n : Nat)
  | jsClick
  | sleepBetween
deriving DecidableEq

/-- Event trace of the `_click_with_retry` loop. -/
def click_with_retry_trace (beh : Nat → ClickOutcome) :
    Nat → Nat → List ClickEvent
  | _, 0 => []
  | attempt, rem + 1 =>
    ClickEvent.clickAttempt attempt ::
      match beh attempt with
      | ClickOutcome.success => []
      | ClickOutcome.stale =>
        if rem = 0 then []
        else ClickEvent.sleepBetween :: click_with_retry_trace beh (attempt + 1) rem
      | ClickOutcome.notInteractable => [ClickEvent.jsClick]

/-- Event trace of `BasePage.click_element`: one resolution
(`find_clickable_element`), then the retry loop on the resolved handle. -/
def click_element_trace (beh : Nat → ClickOutcome) (max_attempts : Nat) :
    List ClickEvent :=
  ClickEvent.resolveClickable :: click_with_retry_trace beh 0 max_attempts

/-- Counts the element resolutions in a `click_element` trace. -/
def countResolves (tr : List ClickEvent) : Nat :=
  tr.countP (fun e =>
    match e with
    | ClickEvent.resolveClickable => true
    | _ => false)

/-- Counts the `element.click()` calls in a `click_element` trace. -/
def countClickAttempts (tr : List ClickEvent) : Nat :=
  tr.countP (fun e =>
    match e with
    | ClickEvent.clickAttempt _ => true
    | _ => false)

lemma click_loop_ok_of_stale_then_success (beh : Nat → ClickOutcome)
    (js : Except String Unit) :
    ∀ (N : Nat) (attempt rem : Nat), N < rem →
      (∀ k, k < N → beh (attempt + k) = ClickOutcome.stale) →
      beh (attempt + N) = ClickOutcome.success →
      click_with_retry_loop beh js attempt rem = Except.ok () := by
  intro N
  induction N with
  | zero =>
    intro attempt rem hlt _ hsucc
    obtain ⟨rem', rfl⟩ : ∃ r, rem = r + 1 :=
      ⟨rem - 1, by omega⟩
    simp only [click_with_retry_loop]
    rw [show attempt + 0 = attempt from rfl] at hsucc
    rw [hsucc]
  | succ N ih =>
    intro attempt rem hlt hstale hsucc
    obtain ⟨rem', rfl⟩ : ∃ r, rem = r + 1 := ⟨rem - 1, by omega⟩
    have h0 : beh attempt = ClickOutcome.stale := by
      have := hstale 0 (Nat.succ_pos N)
      simpa using this
    simp only [click_with_retry_loop, h0]
    have hrem' : rem' ≠ 0 := by omega
    rw [if_neg hrem']
    exact ih (attempt + 1) rem' (by omega)
      (fun k hk => by
        have := hstale (k + 1) (Nat.succ_lt_succ hk)
        rwa [show attempt + (k + 1) = attempt + 1 + k by omega] at this)
      (by rwa [show attempt + 1 + N = attempt + (N + 1) by omega])

lemma click_loop_error_of_all_stale (beh : Nat → ClickOutcome)
    (js : Except String Unit) :
    ∀ (rem attempt : Nat), 1 ≤ rem →
      (∀ k, k < rem → beh (attempt + k) = ClickOutcome.stale) →
      click_with_retry_loop beh js attempt rem =
        Except.error "StaleElementReferenceException" := by
  intro rem
  induction rem with
  | zero => intro attempt h; omega
  | succ rem ih =>
    intro attempt _ hstale
    have h0 : beh attempt = ClickOutcome.stale := by
      have := hstale 0 (Nat.succ_pos rem)
      simpa using this
    simp only [click_with_retry_loop, h0]
    by_cases hrem : rem = 0
    · subst hrem; simp
    · rw [if_neg hrem]
      exact ih (attempt + 1) (by omega)
        (fun k hk => by
          have := hstale (k + 1) (Nat.succ_lt_succ hk)
          rwa [show attempt + (k + 1) = attempt + 1 + k by omega] at this)

lemma click_with_retry_trace_no_resolve (beh : Nat → ClickOutcome) :
    ∀ (rem attempt : Nat), countResolves (click_with_retry_trace beh attempt rem) = 0 := by
  intro rem
  induction rem with
  | zero => intro attempt; rfl
  | succ rem ih =>
    intro attempt
    simp only [click_with_retry_trace, countResolves, List.countP_cons]
    cases h : beh attempt with
    | success => simp [countResolves]
    | stale =>
      by_cases hrem : rem = 0
      · subst hrem; simp [countResolves]
      · rw [if_neg hrem]
        have := ih (attempt + 1)
        simp only [countResolves] at this
        simp [countResolves, List.countP_cons, this]
    | notInteractable => simp [countResolves]

/-- C3 counterexample: the element is stale on attempts 0 and 1 and
clickable on attempt 2; `click_element` (resolution followed by
`_click_with_retry` with `max_attempts = 3`) succeeds after two retries,
yet its trace contains exactly one element resolution and three click
attempts — the retries click the same stale handle again instead of
re-resolving the element, contrary to the claim that each retry
re-resolves before clicking. -/
theorem click_retry_no_reresolution_counterexample :
    click_with_retry (fun n => if n < 2 then ClickOutcome.stale else ClickOutcome.success)
        (Except.ok ()) 3 = Except.ok () ∧
      countResolves (click_element_trace
        (fun n => if n < 2 then ClickOutcome.stale else ClickOutcome.success) 3) = 1 ∧
      countClickAttempts (click_element_trace
        (fun n => if n < 2 then ClickOutcome.stale else ClickOutcome.success) 3) = 3 :=
  ⟨rfl, rfl, rfl⟩

/-- C3 as amended: with `max_attempts` attempts, staleness on exactly `N`
attempts (`N < max_attempts`) followed by a successful click yields
success; staleness on every attempt propagates the stale-reference
failure; and each retry clicks the same element handle again — the
element is resolved exactly once, by `click_element`, before the first
attempt, and never re-resolved between attempts. -/
theorem click_with_retry_spec (beh beh2 : Nat → ClickOutcome)
    (js : Except String Unit) (N max_attempts max2 : Nat)
    (hN : N < max_attempts)
    (hstale : ∀ k, k < N → beh k = ClickOutcome.stale)
    (hsucc : beh N = ClickOutcome.success)
    (hmax2 : 1 ≤ max2)
    (hstale2 : ∀ k, k < max2 → beh2 k = ClickOutcome.stale) :
    click_with_retry beh js max_attempts = Except.ok () ∧
      click_with_retry beh2 js max2 =
        Except.error "StaleElementReferenceException" ∧
      countResolves (click_element_trace beh max_attempts) = 1 ∧
      countResolves (click_element_trace beh2 max2) = 1 := by
  refine ⟨?_, ?_, ?_, ?_⟩
  · exact click_loop_ok_of_stale_then_success beh js N 0 max_attempts hN
      (fun k hk => by simpa using hstale k hk) (by simpa using hsucc)
  · exact click_loop_error_of_all_stale beh2 js max2 0 hmax2
      (fun k hk => by simpa using hstale2 k hk)
  · simp [click_element_trace, countResolves, List.countP_cons]
    have := click_with_retry_trace_no_resolve beh max_attempts 0
    simpa [countResolves] using this
  · simp [click_element_trace, countResolves, List.countP_cons]
    have := click_with_retry_trace_no_resolve beh2 max2 0
    simpa [countResolves] using this

/-- Witness for the amended C3: stale once then success with three
attempts succeeds; always-stale with three attempts raises; both traces
contain a single resolution. -/
theorem click_with_retry_spec_witness :
    click_with_retry (fun n => if n < 1 then ClickOutcome.stale else ClickOutcome.success)
        (Except.ok ()) 3 = Except.ok () ∧
      click_with_retry (fun _ => ClickOutcome.stale) (Except.ok ()) 3 =
        Except.error "StaleElementReferenceException" ∧
      countResolves (click_element_trace
        (fun n => if n < 1 then ClickOutcome.stale else ClickOutcome.success) 3) = 1 ∧
      countResolves (click_element_trace (fun _ => ClickOutcome.stale) 3) = 1 :=
  click_with_retry_spec
    (fun n => if n < 1 then ClickOutcome.stale else ClickOutcome.success)
    (fun _ => ClickOutcome.stale) (Except.ok ()) 1 3 3
    (by decide)
    (fun k hk => by
      have : k = 0 := by omega
      subst this; rfl)
    rfl (by decide) (fun k _ => rfl)

/-! ## login_page.get_error_message (login_page.py lines 326-345, 584-636)

`get_error_message` runs `_find_error_by_locators` and then
`_find_error_by_text_patterns`, returning the first non-empty result.

`_find_error_by_locators` walks `ERROR_MESSAGE`, `GENERIC_ERROR`,
`EMAIL_ERROR`, `PASSWORD_ERROR` in that order, returning the first
non-empty stripped text of a visible element.

`_find_error_by_text_patterns` walks a fixed keyword list; for each
keyword it calls `find_elements` on an XPath matching the present nodes
whose lowercased text contains the keyword, and returns the first
displayed node with a non-empty stripped text. `find_elements` waits for
presence and raises `TimeoutException` when no node matches — and the
`try` in `_find_error_by_text_patterns` wraps the whole keyword loop, so
the first keyword with no matching node aborts the entire scan with "".

The page is modelled by `ErrorPage`: `visibleText l` is the raw `.text`
of the visible element resolved by locator `l` (`none` when
`find_visible_element` raises), and `nodes` are the present text nodes
the XPath scan ranges over. Python `.strip()` is modelled by
`String.trim` and `.lower()` by `pyLower`. The locator value strings
elide the quote characters of the CSS attribute selectors. -/

/-- Python `str.lower` for the ASCII texts handled here. -/
def pyLower (s : String) : String := String.mk (s.data.map Char.toLower)

/-- Python `str.strip()`: drop whitespace from both ends. -/
def pyStrip (s : String) : String :=
  String.mk (((s.data.dropWhile Char.isWhitespace).reverse.dropWhile
    Char.isWhitespace).reverse)

/-- Whether the needle occurs at the head of the haystack. -/
def leadsWith : List Char → List Char → Bool
  | [], _ => true
  | _ :: _, [] => false
  | a :: as, b :: bs => a == b && leadsWith as bs

/-- Whether the needle occurs anywhere in the haystack: the Python
substring test `needle in hay` on the character lists. -/
def containsSub (needle : List Char) : List Char → Bool
  | [] => leadsWith needle []
  | b :: bs => leadsWith needle (b :: bs) || containsSub needle bs

/-- Python `needle in hay` on strings. -/
def strContains (hay needle : String) : Bool := containsSub needle.data hay.data

lemma leadsWith_append (l r : List Char) : leadsWith l (l ++ r) = true := by
  induction l with
  | nil => rfl
  | cons a as ih => simp [leadsWith, ih]

lemma containsSub_of_leadsWith (n h : List Char) (hl : leadsWith n h = true) :
    containsSub n h = true := by
  cases h with
  | nil => simpa [containsSub] using hl
  | cons b bs => simp [containsSub, hl]

lemma containsSub_append_left (n h1 h2 : List Char)
    (h : containsSub n h2 = true) : containsSub n (h1 ++ h2) = true := by
  induction h1 with
  | nil => simpa using h
  | cons a as ih =>
    cases n with
    | nil => simp [containsSub, leadsWith]
    | cons c cs => simp [containsSub, ih]

lemma containsSub_middle (n h1 h3 : List Char) :
    containsSub n (h1 ++ n ++ h3) = true := by
  rw [List.append_assoc]
  exact containsSub_append_left n h1 (n ++ h3)
    (containsSub_of_leadsWith n (n ++ h3) (leadsWith_append n h3))

/-- One present text node of the page, for the XPath text-pattern scan. -/
structure PageNode where
  nodeText : String
  displayed : Bool
deriving DecidableEq

/-- The page as seen by the error-retrieval code. -/
structure ErrorPage where
  visibleText : Locator → Option String
  nodes : List PageNode

/-- `LoginPage.ERROR_MESSAGE` (`.ulp-input-error-message`). -/
def ERROR_MESSAGE : Locator := ⟨"css selector", ".ulp-input-error-message"⟩

/-- `LoginPage.EMAIL_ERROR` (`error-element-username`). -/
def EMAIL_ERROR : Locator := ⟨"id", "error-element-username"⟩

/-- `LoginPage.PASSWORD_ERROR` (`error-element-password`). -/
def PASSWORD_ERROR : Locator := ⟨"id", "error-element-password"⟩

/-- `LoginPage.GENERIC_ERROR` (`[data-qa-id=login-error]`). -/
def GENERIC_ERROR : Locator := ⟨"css selector", "[data-qa-id=login-error]"⟩

/-- The locator order of `_find_error_by_locators`. -/
def error_locators : List Locator :=
  [ERROR_MESSAGE, GENERIC_ERROR, EMAIL_ERROR, PASSWORD_ERROR]

/-- The keyword order of `_find_error_by_text_patterns`. -/
def error_patterns : List String :=
  ["incorrect", "invalid", "wrong", "error", "failed",
   "not found", "does not exist", "try again", "password"]

/-- Loop of `_find_error_by_locators`: first non-empty stripped visible
text among the given locators, else "". -/
def find_error_by_locators_on (page : ErrorPage) : List Locator → String
  | [] => ""
  | l :: ls =>
    match page.visibleText l with
    | some t => if pyStrip t ≠ "" then pyStrip t else find_error_by_locators_on page ls
    | none => find_error_by_locators_on page ls

/-- `LoginPage._find_error_by_locators`. -/
def find_error_by_locators (page : ErrorPage) : String :=
  find_error_by_locators_on page error_locators

/-- Whether a node's lowercased text contains the (lowercase) keyword:
the XPath `contains(translate(text(), A-Z, a-z), pattern)` test. -/
def nodeMatches (pattern : String) (n : PageNode) : Bool :=
  containsSub pattern.data (pyLower n.nodeText).data

/-- Loop of `_find_error_by_text_patterns`. An empty match list models
`find_elements` raising `TimeoutException`, which the surrounding `try`
turns into an immediate `""` for the whole scan. -/
def find_error_by_text_patterns_on (nodes : List PageNode) : List String → String
  | [] => ""
  | p :: ps =>
    match nodes.filter (nodeMatches p) with
    | [] => ""
    | ms =>
      match ms.find? (fun n => n.displayed && pyStrip n.nodeText != "") with
      | some n => pyStrip n.nodeText
      | none => find_error_by_text_patterns_on nodes ps

/-- `LoginPage._find_error_by_text_patterns`. -/
def find_error_by_text_patterns (page : ErrorPage) : String :=
  find_error_by_text_patterns_on page.nodes error_patterns

/-- `LoginPage.get_error_message`: locator strategies first, then the
text-pattern scan, else "". -/
def get_error_message (page : ErrorPage) : String :=
  let byLocators := find_error_by_locators page
  if byLocators ≠ "" then byLocators
  else
    let byPatterns := find_error_by_text_patterns page
    if byPatterns ≠ "" then byPatterns else ""

/-- A concrete page refuting C4's ordering: the field-scoped email error
locator resolves a visible "Invalid email" element, but the generic
banner also resolves, and the code consults the generic banner first. -/
def errorPageCex : ErrorPage :=
  ⟨fun l =>
    if l = GENERIC_ERROR then some "We could not sign you in"
    else if l = EMAIL_ERROR then some "Invalid email"
    else none,
   []⟩

/-- C4 counterexample: on `errorPageCex` the field-scoped email error
locator yields the non-empty visible text "Invalid email", yet
`get_error_message` returns the generic banner text — the code consults
the generic banner locator before the email and password field-scoped
locators, so field-scoped errors do not come first as the claim states. -/
theorem get_error_message_order_counterexample :
    errorPageCex.visibleText EMAIL_ERROR = some "Invalid email" ∧
      get_error_message errorPageCex = "We could not sign you in" ∧
      ("We could not sign you in" : String) ≠ "Invalid email" := by
  refine ⟨by decide, by decide, by decide⟩

/-- Whether a locator contributes no error text on this page: the visible
wait raises, or the element's stripped text is empty. -/
def locatorYieldsNoError (page : ErrorPage) (l : Locator) : Bool :=
  match page.visibleText l with
  | none => true
  | some s => pyStrip s == ""

lemma find_error_by_locators_on_eq_empty (page : ErrorPage) :
    ∀ ls : List Locator, (∀ l ∈ ls, locatorYieldsNoError page l = true) →
      find_error_by_locators_on page ls = "" := by
  intro ls
  induction ls with
  | nil => intro _; rfl
  | cons a tl ih =>
    intro h
    have ha := h a (by simp)
    unfold locatorYieldsNoError at ha
    unfold find_error_by_locators_on
    cases hv : page.visibleText a with
    | none => exact ih (fun l hl => h l (by simp [hl]))
    | some s =>
      rw [hv] at ha
      have : pyStrip s = "" := by simpa using ha
      simp [this, ih (fun l hl => h l (by simp [hl]))]

/-- C4 as amended: `get_error_message` walks the locators in the order
primary input-error, generic banner, email field error, password field
error — so a generic banner with non-empty visible text wins over the
field-scoped email and password locators — and only when none of the four
yields a non-empty visible text does it fall back to the keyword scan;
the scan tries "incorrect" first and, because `find_elements` raises when
no present node matches a keyword and the exception handler wraps the
whole loop, the scan (and the whole retrieval) returns "" as soon as a
keyword matches no present node, even when a later keyword such as
"invalid" occurs in a visible node. -/
theorem get_error_message_amended (page page2 : ErrorPage) (t : String)
    (h1 : locatorYieldsNoError page ERROR_MESSAGE = true)
    (h2 : page.visibleText GENERIC_ERROR = some t)
    (ht : pyStrip t ≠ "")
    (h3 : ∀ l ∈ error_locators, locatorYieldsNoError page2 l = true)
    (h4 : ∀ n ∈ page2.nodes, nodeMatches "incorrect" n = false) :
    get_error_message page = pyStrip t ∧ get_error_message page2 = "" := by
  constructor
  · unfold get_error_message find_error_by_locators error_locators
    unfold locatorYieldsNoError at h1
    have hfirst : find_error_by_locators_on page
        [ERROR_MESSAGE, GENERIC_ERROR, EMAIL_ERROR, PASSWORD_ERROR] = pyStrip t := by
      unfold find_error_by_locators_on
      cases hv : page.visibleText ERROR_MESSAGE with
      | none => simp [find_error_by_locators_on, h2, ht]
      | some s =>
        rw [hv] at h1
        have hs : pyStrip s = "" := by simpa using h1
        simp [hs, find_error_by_locators_on, h2, ht]
    simp [hfirst, ht]
  · unfold get_error_message
    have hloc : find_error_by_locators page2 = "" :=
      find_error_by_locators_on_eq_empty page2 error_locators h3
    have hfilter : page2.nodes.filter (nodeMatches "incorrect") = [] := by
      rw [List.filter_eq_nil_iff]
      intro n hn
      simp [h4 n hn]
    have hpat : find_error_by_text_patterns page2 = "" := by
      unfold find_error_by_text_patterns error_patterns
      unfold find_error_by_text_patterns_on
      rw [hfilter]
    simp [hloc, hpat]

/-- Witness for the amended C4: a page whose generic banner reads
"Oops, something failed" (all other locators blank) returns that text;
a page with no error locators and one visible "Invalid credentials" node
still returns "" because no node contains "incorrect". -/
theorem get_error_message_amended_witness :
    get_error_message
        ⟨fun l => if l = GENERIC_ERROR then some "Oops, something failed" else none,
         []⟩ = "Oops, something failed" ∧
      get_error_message ⟨fun _ => none, [⟨"Invalid credentials", true⟩]⟩ = "" :=
  get_error_message_amended
    ⟨fun l => if l = GENERIC_ERROR then some "Oops, something failed" else none, []⟩
    ⟨fun _ => none, [⟨"Invalid credentials", true⟩]⟩
    "Oops, something failed"
    (by decide) (by decide) (by decide)
    (by decide) (by decide)

/-! ## URL parsing (urllib.parse.urlparse, as used by login_page.py)

`verify_redirect_url` (lines 98-117) and `verify_redirect_to_provider`
(lines 119-143) inspect `urlparse(url).path` and `urlparse(url).netloc`.
The embedding reproduces `urlsplit` for the components these functions
read: an optional `scheme:` head (a leading alphabetic character followed
by scheme characters up to the first `:`), then, only when the remainder
starts with `//`, a netloc running to the first `/`, `?` or `#`; the path
is the remainder truncated at the first `#` and then at the first `?`. -/

/-- Characters allowed inside a URL scheme after the leading letter. -/
def isSchemeChar (c : Char) : Bool :=
  c.isAlphanum || c == '+' || c == '-' || c == '.'

/-- After the leading letter: the rest of the input past the first `:`,
provided everything before it is scheme characters; `none` when no valid
`scheme:` head exists. -/
def schemeRest : List Char → Option (List Char)
  | [] => none
  | c :: cs =>
    if c = ':' then some cs
    else if isSchemeChar c then schemeRest cs else none

/-- Remove a valid `scheme:` head, if present (`urlsplit` scheme split). -/
def splitScheme (s : List Char) : List Char :=
  match s with
  | [] => []
  | c :: cs =>
    if c.isAlpha then
      match schemeRest cs with
      | some r => r
      | none => s
    else s

/-- A character that does not terminate the netloc. -/
def netlocChar (c : Char) : Bool := c != '/' && c != '?' && c != '#'

/-- The netloc of the scheme-stripped input: after a leading `//`, the
run of characters up to the first `/`, `?` or `#`; empty without `//`. -/
def pyNetlocL (s : List Char) : List Char :=
  if s.take 2 = ['/', '/'] then (s.drop 2).takeWhile netlocChar else []

/-- The scheme-stripped input with its `//netloc` head removed. -/
def pyAfterNetlocL (s : List Char) : List Char :=
  if s.take 2 = ['/', '/'] then (s.drop 2).dropWhile netlocChar else s

/-- `urlparse(url).path`: strip scheme and netloc, then truncate at the
first `#` (fragment) and at the first `?` (query). -/
def pyPath (url : String) : String :=
  String.mk (((pyAfterNetlocL (splitScheme url.data)).takeWhile
    (fun c => c != '#')).takeWhile (fun c => c != '?'))

/-- `urlparse(url).netloc`. -/
def pyNetloc (url : String) : String :=
  String.mk (pyNetlocL (splitScheme url.data))

/-- Python `str.strip('"\\'')` as applied to the expected provider URL:
drop double and single quotes from both ends. -/
def pyStripQuotes (s : String) : String :=
  String.mk (((s.data.dropWhile (fun c => c == '"' || c == '\'')).reverse.dropWhile
    (fun c => c == '"' || c == '\'')).reverse)

/-- `LoginPage.verify_redirect_url`: succeed when the lowercased path of
the current URL contains the lowercased expected fragment, otherwise
raise an assertion whose message carries the expected fragment, the
lowercased actual path and the full URL. -/
def verify_redirect_url (currentUrl path_fragment : String) : Except String Unit :=
  if containsSub (pyLower path_fragment).data (pyLower (pyPath currentUrl)).data then
    Except.ok ()
  else
    Except.error ("Expected URL path to contain \"" ++ path_fragment ++
      "\", but got path: " ++ pyLower (pyPath currentUrl) ++
      " (full URL: " ++ currentUrl ++ ")")

/-- `LoginPage.verify_redirect_to_provider`: strip quotes from the
expected URL, compare the lowercased netlocs; fail only when the expected
netloc is neither a substring of nor equal to the current netloc. -/
def verify_redirect_to_provider (currentUrl expected_url : String) : Except String Unit :=
  if containsSub (pyLower (pyNetloc (pyStripQuotes expected_url))).data
        (pyLower (pyNetloc currentUrl)).data = false ∧
      pyLower (pyNetloc currentUrl) ≠ pyLower (pyNetloc (pyStripQuotes expected_url)) then
    Except.error ("Expected to be redirected to domain \"" ++
      pyLower (pyNetloc (pyStripQuotes expected_url)) ++
      "\", but got domain: " ++ pyLower (pyNetloc currentUrl) ++
      " (full URL: " ++ currentUrl ++ ")")
  else
    Except.ok ()

/-- Whether an `Except` result is a success (models "no exception"). -/
def exceptOk {ε α : Type} : Except ε α → Bool
  | Except.ok _ => true
  | Except.error _ => false

/-- A well-formed URL assembled from components, used to state which
parts of the current URL may and may not influence verification. -/
def mkUrl (scheme host path query frag : String) : String :=
  scheme ++ "://" ++ host ++ path ++ "?" ++ query ++ "#" ++ frag

/-- A non-empty, all-alphabetic scheme. -/
def schemeOk (s : String) : Prop := s.data ≠ [] ∧ ∀ c ∈ s.data, c.isAlpha = true

/-- A host containing no `/`, `?` or `#`. -/
def hostOk (h : String) : Prop := ∀ c ∈ h.data, netlocChar c = true

/-- A path free of `?` and `#` that is empty or starts with `/`. -/
def pathOk (p : String) : Prop :=
  (∀ c ∈ p.data, c ≠ '?' ∧ c ≠ '#') ∧ (p.data = [] ∨ p.data.head? = some '/')

/-- A query free of `#`. -/
def queryOk (q : String) : Prop := ∀ c ∈ q.data, c ≠ '#'

lemma strData_append (a b : String) : (a ++ b).data = a.data ++ b.data := by
  cases a; cases b; rfl

lemma strMk_data (s : String) : String.mk s.data = s := by
  cases s; rfl

lemma leadsWith_extend (n : List Char) :
    ∀ (h h2 : List Char), leadsWith n h = true → leadsWith n (h ++ h2) = true := by
  induction n with
  | nil => intro h h2 _; rfl
  | cons a as ih =>
    intro h h2 hl
    cases h with
    | nil => simp [leadsWith] at hl
    | cons b bs =>
      simp only [leadsWith, Bool.and_eq_true] at hl
      simp [leadsWith, hl.1, ih bs h2 hl.2]

lemma containsSub_extend (n : List Char) :
    ∀ (h1 h2 : List Char), containsSub n h1 = true → containsSub n (h1 ++ h2) = true := by
  intro h1
  induction h1 with
  | nil =>
    intro h2 hc
    cases n with
    | nil => cases h2 <;> simp [containsSub, leadsWith]
    | cons c cs => simp [containsSub, leadsWith] at hc
  | cons b bs ih =>
    intro h2 hc
    simp only [containsSub, Bool.or_eq_true] at hc
    simp only [List.cons_append, containsSub, Bool.or_eq_true]
    rcases hc with hc | hc
    · exact Or.inl (by simpa using leadsWith_extend n (b :: bs) h2 hc)
    · exact Or.inr (ih h2 hc)

lemma schemeRest_append (s rest : List Char)
    (h : ∀ c ∈ s, isSchemeChar c = true) :
    schemeRest (s ++ ':' :: rest) = some rest := by
  induction s with
  | nil => simp [schemeRest]
  | cons a as ih =>
    have ha := h a (by simp)
    have hne : ¬(a = ':') := by
      intro h'; subst h'; exact absurd ha (by decide)
    simp [schemeRest, hne, ha, ih (fun c hc => h c (by simp [hc]))]

lemma splitScheme_append (s rest : List Char) (hne : s ≠ [])
    (h : ∀ c ∈ s, c.isAlpha = true) :
    splitScheme (s ++ ':' :: rest) = rest := by
  cases s with
  | nil => contradiction
  | cons a as =>
    have ha : a.isAlpha = true := h a (by simp)
    have hs : ∀ c ∈ as, isSchemeChar c = true := by
      intro c hc
      have := h c (by simp [hc])
      simp [isSchemeChar, Char.isAlphanum, this]
    simp [splitScheme, ha, schemeRest_append as rest hs]

lemma takeWhile_append_all (p : Char → Bool) :
    ∀ (l1 l2 : List Char), (∀ c ∈ l1, p c = true) →
      (l1 ++ l2).takeWhile p = l1 ++ l2.takeWhile p := by
  intro l1
  induction l1 with
  | nil => intro l2 _; rfl
  | cons a as ih =>
    intro l2 h
    have ha := h a (by simp)
    simp [List.takeWhile_cons, ha, ih l2 (fun c hc => h c (by simp [hc]))]

lemma dropWhile_append_all (p : Char → Bool) :
    ∀ (l1 l2 : List Char), (∀ c ∈ l1, p c = true) →
      (l1 ++ l2).dropWhile p = l2.dropWhile p := by
  intro l1
  induction l1 with
  | nil => intro l2 _; rfl
  | cons a as ih =>
    intro l2 h
    have ha := h a (by simp)
    simp [List.dropWhile_cons, ha, ih l2 (fun c hc => h c (by simp [hc]))]

lemma pyParse_mkUrl (scheme host path q fr : String)
    (hs : schemeOk scheme) (hh : hostOk host) (hp : pathOk path)
    (hq : queryOk q) :
    pyPath (mkUrl scheme host path q fr) = path ∧
      pyNetloc (mkUrl scheme host path q fr) = host := by
  obtain ⟨hsne, hsal⟩ := hs
  have hd : (mkUrl scheme host path q fr).data =
      scheme.data ++ ':' :: ('/' :: '/' ::
        (host.data ++ (path.data ++ ('?' :: (q.data ++ ('#' :: fr.data)))))) := by
    simp [mkUrl, strData_append, List.append_assoc]
  have hsplit : splitScheme (mkUrl scheme host path q fr).data =
      '/' :: '/' ::
        (host.data ++ (path.data ++ ('?' :: (q.data ++ ('#' :: fr.data))))) := by
    rw [hd]
    exact splitScheme_append scheme.data _ hsne hsal
  have hqmark : netlocChar '?' = false := by decide
  have hslash : netlocChar '/' = false := by decide
  have hpathTail : (path.data ++ ('?' :: (q.data ++ ('#' :: fr.data)))).takeWhile
      netlocChar = [] := by
    rcases hp.2 with hnil | hhead
    · rw [hnil]; simp [List.takeWhile_cons, hqmark]
    · cases hpd : path.data with
      | nil => simp [List.takeWhile_cons, hqmark]
      | cons a r =>
        rw [hpd] at hhead
        have ha : a = '/' := by simpa using hhead
        subst ha
        simp [List.takeWhile_cons, hslash]
  have hpathTailDrop : (path.data ++ ('?' :: (q.data ++ ('#' :: fr.data)))).dropWhile
      netlocChar = path.data ++ ('?' :: (q.data ++ ('#' :: fr.data))) := by
    rcases hp.2 with hnil | hhead
    · rw [hnil]; simp [List.dropWhile_cons, hqmark]
    · cases hpd : path.data with
      | nil => simp [List.dropWhile_cons, hqmark]
      | cons a r =>
        rw [hpd] at hhead
        have ha : a = '/' := by simpa using hhead
        subst ha
        simp [List.dropWhile_cons, hslash]
  have hnetloc : pyNetlocL (splitScheme (mkUrl scheme host path q fr).data) =
      host.data := by
    rw [hsplit]
    unfold pyNetlocL
    rw [if_pos (by simp [List.take])]
    simp only [List.drop]
    rw [takeWhile_append_all netlocChar host.data _ hh, hpathTail,
      List.append_nil]
  have hafter : pyAfterNetlocL (splitScheme (mkUrl scheme host path q fr).data) =
      path.data ++ ('?' :: (q.data ++ ('#' :: fr.data))) := by
    rw [hsplit]
    unfold pyAfterNetlocL
    rw [if_pos (by simp [List.take])]
    simp only [List.drop]
    rw [dropWhile_append_all netlocChar host.data _ hh, hpathTailDrop]
  have hcut1 : ((path.data ++ ('?' :: (q.data ++ ('#' :: fr.data)))).takeWhile
      (fun c => c != '#')) = path.data ++ ('?' :: q.data) := by
    have hassoc : path.data ++ ('?' :: (q.data ++ ('#' :: fr.data))) =
        (path.data ++ ('?' :: q.data)) ++ ('#' :: fr.data) := by
      simp [List.append_assoc]
    rw [hassoc]
    rw [takeWhile_append_all (fun c => c != '#') (path.data ++ ('?' :: q.data)) _
      (by
        intro c hc
        rcases List.mem_append.mp hc with hc | hc
        · simpa using (hp.1 c hc).2
        · rcases List.mem_cons.mp hc with hc | hc
          · subst hc; decide
          · simpa using hq c hc)]
    simp [List.takeWhile_cons]
  have hcut2 : ((path.data ++ ('?' :: q.data)).takeWhile (fun c => c != '?')) =
      path.data := by
    rw [takeWhile_append_all (fun c => c != '?') path.data _
      (by intro c hc; simpa using (hp.1 c hc).1)]
    simp [List.takeWhile_cons]
  constructor
  · unfold pyPath
    rw [hafter, hcut1, hcut2, strMk_data]
  · unfold pyNetloc
    rw [hnetloc, strMk_data]

/-- C5: `verify_redirect_url` succeeds exactly when the lowercased path
component of the current URL contains the lowercased expected fragment;
the query string and the hash fragment of the current URL never affect
the outcome; and on mismatch the raised assertion message carries both
the actual (lowercased) path and the expected fragment. -/
theorem verify_redirect_url_spec (scheme host path q fr frag : String)
    (hs : schemeOk scheme) (hh : hostOk host) (hp : pathOk path)
    (hq : queryOk q) :
    (verify_redirect_url (mkUrl scheme host path q fr) frag = Except.ok () ↔
      containsSub (pyLower frag).data (pyLower path).data = true) ∧
    (∀ q2 fr2, queryOk q2 →
      exceptOk (verify_redirect_url (mkUrl scheme host path q2 fr2) frag) =
        exceptOk (verify_redirect_url (mkUrl scheme host path q fr) frag)) ∧
    (∀ msg, verify_redirect_url (mkUrl scheme host path q fr) frag = Except.error msg →
      containsSub frag.data msg.data = true ∧
        containsSub (pyLower path).data msg.data = true) := by
  have hpa := (pyParse_mkUrl scheme host path q fr hs hh hp hq).1
  refine ⟨?_, ?_, ?_⟩
  · unfold verify_redirect_url
    rw [hpa]
    by_cases hc : containsSub (pyLower frag).data (pyLower path).data = true
    · simp [hc]
    · simp [hc]
  · intro q2 fr2 hq2
    have hpa2 := (pyParse_mkUrl scheme host path q2 fr2 hs hh hp hq2).1
    unfold verify_redirect_url
    rw [hpa, hpa2]
    by_cases hc : containsSub (pyLower frag).data (pyLower path).data = true <;>
      simp [hc, exceptOk]
  · intro msg hmsg
    unfold verify_redirect_url at hmsg
    rw [hpa] at hmsg
    by_cases hc : containsSub (pyLower frag).data (pyLower path).data = true
    · simp [hc] at hmsg
    · rw [if_neg (by simpa using hc)] at hmsg
      have heq := (Except.error.injEq _ _).mp hmsg.symm
      subst heq
      constructor
      · simp only [strData_append, List.append_assoc]
        exact containsSub_append_left _ _ _
          (containsSub_of_leadsWith _ _ (leadsWith_append frag.data _))
      · simp only [strData_append, List.append_assoc]
        exact containsSub_append_left _ _ _
          (containsSub_append_left _ _ _
            (containsSub_append_left _ _ _
              (containsSub_of_leadsWith _ _ (leadsWith_append (pyLower path).data _))))

/-- Witness for C5: the spec example. With current URL
`https://app.example.com/home/dashboard?ref=x#` and expected fragment
`home`, redirect verification succeeds. -/
theorem verify_redirect_url_spec_witness :
    verify_redirect_url (mkUrl "https" "app.example.com" "/home/dashboard" "ref=x" "")
      "home" = Except.ok () :=
  ((verify_redirect_url_spec "https" "app.example.com" "/home/dashboard" "ref=x" ""
      "home" (by constructor <;> decide) (by unfold hostOk; decide)
      (by constructor <;> decide) (by unfold queryOk; decide)).1).mpr (by decide)

/-- C6 counterexample: with current URL
`https://accounts.google.com/oauth/authorize?scope=email` and expected
provider `facebook.com`, `verify_redirect_to_provider` succeeds, although
`facebook.com` is not contained in (nor equal to) the current host
`accounts.google.com` — the claim says this case must fail. The third
conjunct shows why: `urlparse` gives the bare-domain expected string an
empty netloc, so the code compares the empty string. -/
theorem verify_redirect_to_provider_counterexample :
    verify_redirect_to_provider
        "https://accounts.google.com/oauth/authorize?scope=email"
        "facebook.com" = Except.ok () ∧
      containsSub ("facebook.com" : String).data
        ("accounts.google.com" : String).data = false ∧
      pyNetloc (pyStripQuotes "facebook.com") = "" :=
  ⟨rfl, by decide, by decide⟩

/-- C6 as amended: the host `verify_redirect_to_provider` compares is the
netloc that `urlparse` extracts from the quote-stripped expected string —
empty whenever that string has no `//`-marked netloc, in which case
verification vacuously succeeds. Verification succeeds exactly when that
expected netloc, lowercased, is a substring of or equal to the lowercased
current host; the path, query and hash of the current URL never affect
the outcome; and on mismatch the assertion message carries both domains. -/
theorem verify_redirect_to_provider_amended (scheme host path q fr expected : String)
    (hs : schemeOk scheme) (hh : hostOk host) (hp : pathOk path)
    (hq : queryOk q) :
    (verify_redirect_to_provider (mkUrl scheme host path q fr) expected = Except.ok () ↔
      (containsSub (pyLower (pyNetloc (pyStripQuotes expected))).data
          (pyLower host).data = true ∨
        pyLower host = pyLower (pyNetloc (pyStripQuotes expected)))) ∧
    (pyNetloc (pyStripQuotes expected) = "" →
      verify_redirect_to_provider (mkUrl scheme host path q fr) expected =
        Except.ok ()) ∧
    (∀ path2 q2 fr2, pathOk path2 → queryOk q2 →
      exceptOk (verify_redirect_to_provider (mkUrl scheme host path2 q2 fr2) expected) =
        exceptOk (verify_redirect_to_provider (mkUrl scheme host path q fr) expected)) ∧
    (∀ msg, verify_redirect_to_provider (mkUrl scheme host path q fr) expected =
        Except.error msg →
      containsSub (pyLower (pyNetloc (pyStripQuotes expected))).data msg.data = true ∧
        containsSub (pyLower host).data msg.data = true) := by
  have hna := (pyParse_mkUrl scheme host path q fr hs hh hp hq).2
  have hiff : verify_redirect_to_provider (mkUrl scheme host path q fr) expected =
        Except.ok () ↔
      (containsSub (pyLower (pyNetloc (pyStripQuotes expected))).data
          (pyLower host).data = true ∨
        pyLower host = pyLower (pyNetloc (pyStripQuotes expected))) := by
    unfold verify_redirect_to_provider
    rw [hna]
    by_cases hc : containsSub (pyLower (pyNetloc (pyStripQuotes expected))).data
        (pyLower host).data = true
    · simp [hc]
    · by_cases he : pyLower host = pyLower (pyNetloc (pyStripQuotes expected))
      · simp [hc, he]
      · rw [if_pos ⟨by simpa using hc, he⟩]
        simp [hc, he]
  refine ⟨hiff, ?_, ?_, ?_⟩
  · intro hempty
    rw [hiff, hempty]
    exact Or.inl (by cases hd : (pyLower host).data <;>
      simp [pyLower, containsSub, leadsWith, hd])
  · intro path2 q2 fr2 hp2 hq2
    have hna2 := (pyParse_mkUrl scheme host path2 q2 fr2 hs hh hp2 hq2).2
    unfold verify_redirect_to_provider
    rw [hna, hna2]
    by_cases hc : containsSub (pyLower (pyNetloc (pyStripQuotes expected))).data
        (pyLower host).data = true
    · simp [hc, exceptOk]
    · by_cases he : pyLower host = pyLower (pyNetloc (pyStripQuotes expected))
      · simp [hc, he, exceptOk]
      · rw [if_pos ⟨by simpa using hc, he⟩, if_pos ⟨by simpa using hc, he⟩]
        simp [exceptOk]
  · intro msg hmsg
    unfold verify_redirect_to_provider at hmsg
    rw [hna] at hmsg
    by_cases hc : containsSub (pyLower (pyNetloc (pyStripQuotes expected))).data
        (pyLower host).data = true
    · simp [hc] at hmsg
    · by_cases he : pyLower host = pyLower (pyNetloc (pyStripQuotes expected))
      · simp [hc, he] at hmsg
      · rw [if_pos ⟨by simpa using hc, he⟩] at hmsg
        have heq := (Except.error.injEq _ _).mp hmsg.symm
        subst heq
        constructor
        · simp only [strData_append, List.append_assoc]
          exact containsSub_append_left _ _ _
            (containsSub_of_leadsWith _ _
              (leadsWith_append (pyLower (pyNetloc (pyStripQuotes expected))).data _))
        · simp only [strData_append, List.append_assoc]
          exact containsSub_append_left _ _ _
            (containsSub_append_left _ _ _
              (containsSub_append_left _ _ _
                (containsSub_of_leadsWith _ _
                  (leadsWith_append (pyLower host).data _))))

/-- Witness for the amended C6: with current URL
`https://accounts.google.com/oauth/authorize?scope=email#` and expected
provider URL `https://google.com`, provider verification succeeds (the
expected netloc `google.com` is contained in the current host). -/
theorem verify_redirect_to_provider_amended_witness :
    verify_redirect_to_provider
      (mkUrl "https" "accounts.google.com" "/oauth/authorize" "scope=email" "")
      "https://google.com" = Except.ok () :=
  ((verify_redirect_to_provider_amended "https" "accounts.google.com"
      "/oauth/authorize" "scope=email" "" "https://google.com"
      (by constructor <;> decide) (by unfold hostOk; decide)
      (by constructor <;> decide)
      (by unfold queryOk; decide)).1).mpr (Or.inl (by decide))

/-! ## Scenario lifecycle and metrics (environment.py)

`before_all` initialises `context.test_metrics` to zero counters.
`before_scenario` (lines 68-125) increments `total_tests`.
`after_scenario` (lines 128-164) increments exactly one of
`passed_tests` / `failed_tests` / `skipped_tests` according to
`scenario.status` (every status other than `passed` and `failed` counts
as skipped), takes a failure screenshot while the driver is still live,
then quits the driver inside a `try`/`except` and deletes the
scenario-local data. `after_all` (lines 175-215) prints and writes the
summary; the pass rate is `passed / total * 100` printed with two
decimals. -/

/-- The `context.test_metrics` counters. -/
structure TestMetrics where
  total_tests : Nat
  passed_tests : Nat
  failed_tests : Nat
  skipped_tests : Nat
deriving DecidableEq

/-- The counters as initialised by `before_all`. -/
def initMetrics : TestMetrics := ⟨0, 0, 0, 0⟩

/-- The scenario outcome as classified by `after_scenario`: `passed`,
`failed`, or anything else (counted as skipped). -/
inductive ScenarioStatus
  | passed
  | failed
  | skipped
deriving DecidableEq

/-- The metrics update of `before_scenario`: one more total. -/
def before_scenario_metrics (m : TestMetrics) : TestMetrics :=
  { m with total_tests := m.total_tests + 1 }

/-- The metrics update of `after_scenario`: exactly one outcome counter. -/
def after_scenario_metrics (st : ScenarioStatus) (m : TestMetrics) : TestMetrics :=
  match st with
  | ScenarioStatus.passed => { m with passed_tests := m.passed_tests + 1 }
  | ScenarioStatus.failed => { m with failed_tests := m.failed_tests + 1 }
  | ScenarioStatus.skipped => { m with skipped_tests := m.skipped_tests + 1 }

/-- A sequential run: each scenario passes through `before_scenario` and
`after_scenario` once, in order. -/
def runScenarios (m : TestMetrics) : List ScenarioStatus → TestMetrics
  | [] => m
  | st :: rest => runScenarios (after_scenario_metrics st (before_scenario_metrics m)) rest

/-- The pass rate in hundredths of a percent as the `%.2f` format of
`after_all` prints it: `passed / total * 100` rounded to two decimals
(so `6667` renders as `66.67%`). -/
def passRateCentis (m : TestMetrics) : Nat :=
  (m.passed_tests * 20000 + m.total_tests) / (2 * m.total_tests)

lemma runScenarios_counts (sts : List ScenarioStatus) :
    ∀ m : TestMetrics,
      (runScenarios m sts).total_tests = m.total_tests + sts.length ∧
      (runScenarios m sts).passed_tests =
        m.passed_tests + sts.count ScenarioStatus.passed ∧
      (runScenarios m sts).failed_tests =
        m.failed_tests + sts.count ScenarioStatus.failed ∧
      (runScenarios m sts).skipped_tests =
        m.skipped_tests + sts.count ScenarioStatus.skipped := by
  induction sts with
  | nil => intro m; simp [runScenarios]
  | cons st rest ih =>
    intro m
    obtain ⟨h1, h2, h3, h4⟩ := ih (after_scenario_metrics st (before_scenario_metrics m))
    have hrw : runScenarios m (st :: rest) =
        runScenarios (after_scenario_metrics st (before_scenario_metrics m)) rest := rfl
    rw [hrw, h1, h2, h3, h4]
    cases st <;>
      simp [after_scenario_metrics, before_scenario_metrics, List.count_cons] <;>
      omega

lemma count_statuses (sts : List ScenarioStatus) :
    sts.count ScenarioStatus.passed + sts.count ScenarioStatus.failed +
      sts.count ScenarioStatus.skipped = sts.length := by
  induction sts with
  | nil => rfl
  | cons st rest ih => cases st <;> simp [List.count_cons] <;> omega

/-- C7: over any sequential run the accumulator counts one total per
scenario and exactly one of passed/failed/skipped per scenario (the three
outcome counters always sum to the total); in particular a run of three
scenarios in which exactly the second fails reports total 3, passed 2,
failed 1, skipped 0 and a printed pass rate of 66.67%. -/
theorem test_metrics_spec (sts : List ScenarioStatus) :
    (runScenarios initMetrics sts).total_tests = sts.length ∧
      (runScenarios initMetrics sts).passed_tests = sts.count ScenarioStatus.passed ∧
      (runScenarios initMetrics sts).failed_tests = sts.count ScenarioStatus.failed ∧
      (runScenarios initMetrics sts).skipped_tests = sts.count ScenarioStatus.skipped ∧
      (runScenarios initMetrics sts).passed_tests +
          (runScenarios initMetrics sts).failed_tests +
          (runScenarios initMetrics sts).skipped_tests =
        (runScenarios initMetrics sts).total_tests ∧
      runScenarios initMetrics
          [ScenarioStatus.passed, ScenarioStatus.failed, ScenarioStatus.passed] =
        ⟨3, 2, 1, 0⟩ ∧
      passRateCentis ⟨3, 2, 1, 0⟩ = 6667 := by
  obtain ⟨h1, h2, h3, h4⟩ := runScenarios_counts sts initMetrics
  refine ⟨?_, ?_, ?_, ?_, ?_, by decide, by decide⟩
  · rw [h1]; simp [initMetrics]
  · rw [h2]; simp [initMetrics]
  · rw [h3]; simp [initMetrics]
  · rw [h4]; simp [initMetrics]
  · rw [h1, h2, h3, h4]
    simp only [initMetrics, Nat.zero_add]
    exact count_statuses sts

/-! ## after_scenario cleanup ordering (environment.py lines 128-164,
driver_manager.py quit_driver lines 300-308)

`after_scenario` as an event trace plus the exception escaping the hook
(`none`: the hook returns normally). The failure screenshot is wrapped in
its own `try`/`except`, and `context.driver.quit()` is wrapped in a
`try`/`except` that prints and swallows the error, so neither a
screenshot failure nor a teardown failure propagates. -/

/-- Observable steps of the `after_scenario` hook, in execution order. -/
inductive CleanupEvent
  | incPassed
  | incFailed
  | incSkipped
  | screenshotSaved
  | screenshotError
  | driverQuit
  | driverQuitError
  | scenarioDataCleared
deriving DecidableEq

/-- `driver.quit()` as the hook observes it. -/
def quit_driver_result (quitFails : Bool) : Except String Unit :=
  if quitFails then Except.error "SessionError" else Except.ok ()

/-- `driver.save_screenshot(...)` as the hook observes it. -/
def save_screenshot_result (screenshotFails : Bool) : Except String Unit :=
  if screenshotFails then Except.error "ScreenshotError" else Except.ok ()

/-- `after_scenario`: metrics update, failure screenshot (failed
scenarios with a live driver only, its error caught), driver quit (error
caught and logged), scenario-data cleanup. The second component is the
exception escaping the hook — always `none`, because both fallible calls
sit inside `try`/`except`. -/
def after_scenario_hook (st : ScenarioStatus)
    (hasDriver screenshotFails quitFails : Bool) :
    List CleanupEvent × Option String :=
  let metricEvs :=
    match st with
    | ScenarioStatus.passed => [CleanupEvent.incPassed]
    | ScenarioStatus.failed => [CleanupEvent.incFailed]
    | ScenarioStatus.skipped => [CleanupEvent.incSkipped]
  let shotEvs :=
    if st = ScenarioStatus.failed ∧ hasDriver = true then
      match save_screenshot_result screenshotFails with
      | Except.ok _ => [CleanupEvent.screenshotSaved]
      | Except.error _ => [CleanupEvent.screenshotError]
    else []
  let quitEvs :=
    if hasDriver = true then
      match quit_driver_result quitFails with
      | Except.ok _ => [CleanupEvent.driverQuit]
      | Except.error _ => [CleanupEvent.driverQuitError]
    else []
  (metricEvs ++ shotEvs ++ quitEvs ++ [CleanupEvent.scenarioDataCleared], none)

/-- Screenshot-capture events. -/
def isShotEvent : CleanupEvent → Bool
  | CleanupEvent.screenshotSaved => true
  | CleanupEvent.screenshotError => true
  | _ => false

/-- Session-teardown events. -/
def isQuitEvent : CleanupEvent → Bool
  | CleanupEvent.driverQuit => true
  | CleanupEvent.driverQuitError => true
  | _ => false

/-- No screenshot capture occurs at or after the first teardown event. -/
def noShotFromQuit : List CleanupEvent → Bool
  | [] => true
  | e :: rest =>
    if isQuitEvent e then rest.all (fun x => !isShotEvent x)
    else noShotFromQuit rest

/-- C8: for every scenario outcome, and whether or not the screenshot or
the driver teardown itself fails, the `after_scenario` hook returns
normally (no exception escapes, so the remaining scenarios run), it
always performs the session teardown, and every failure-screenshot
capture in its trace happens strictly before the teardown. -/
theorem after_scenario_cleanup_spec (st : ScenarioStatus)
    (screenshotFails quitFails : Bool) :
    (after_scenario_hook st true screenshotFails quitFails).snd = none ∧
      (after_scenario_hook st true screenshotFails quitFails).fst.any
        isQuitEvent = true ∧
      noShotFromQuit
        (after_scenario_hook st true screenshotFails quitFails).fst = true := by
  cases st <;> cases screenshotFails <;> cases quitFails <;>
    exact ⟨rfl, rfl, rfl⟩

/-! ## Read operations (base_page.py lines 157-184)

`get_element_attribute` resolves with a presence wait (`find_element`)
and returns `element.get_attribute(attribute) or ""`; a missing attribute
(`None`) becomes the empty string. `get_element_text` resolves with a
visibility wait (`find_visible_element`) and returns the stripped text;
a resolution timeout propagates. The resolution result is passed in as an
`Except`, the error case carrying the raised exception. -/

/-- `BasePage.get_element_attribute`. -/
def get_element_attribute (findRes : Except String WebElem)
    (attr : String) : Except String String :=
  match findRes with
  | Except.error e => Except.error e
  | Except.ok el =>
    match el.attrs attr with
    | some v => Except.ok v
    | none => Except.ok ""

/-- `BasePage.get_element_text`. -/
def get_element_text (findVisibleRes : Except String WebElem) :
    Except String String :=
  match findVisibleRes with
  | Except.error e => Except.error e
  | Except.ok el => Except.ok (pyStrip el.textContent)

/-- C9: when the element resolves but the requested attribute is absent,
`get_element_attribute` returns the empty string (not an error and not a
null); when the element never resolves within its timeout,
`get_element_text` propagates the resolution error instead of returning a
default. -/
theorem read_operations_spec (el : WebElem) (attr err : String)
    (h : el.attrs attr = none) :
    get_element_attribute (Except.ok el) attr = Except.ok "" ∧
      get_element_text (Except.error err) = Except.error err := by
  constructor
  · simp [get_element_attribute, h]
  · rfl

/-- Witness for C9: a concrete element with no attributes yields `""` for
`value`, and a timed-out visibility wait propagates the timeout. -/
theorem read_operations_spec_witness :
    get_element_attribute
        (Except.ok ⟨"Log In", fun _ => none⟩) "value" = Except.ok "" ∧
      get_element_text (Except.error "TimeoutException") =
        Except.error "TimeoutException" :=
  read_operations_spec ⟨"Log In", fun _ => none⟩ "value" "TimeoutException" rfl

/-! ## Boolean element predicates (base_page.py lines 186-241)

`is_element_present` / `is_element_visible` / `is_element_clickable` run
a `WebDriverWait` for their condition and catch exactly
`TimeoutException`, returning `False`; a successful wait returns `True`.
An exception other than the timeout is not caught and propagates. The
wait engine is a parameter from `(locator, timeout)` to an outcome. -/

/-- Outcome of one `WebDriverWait(...).until(...)` call. -/
inductive WaitOutcome
  | success (el : WebElem)
  | timeout
  | otherError (msg : String)

/-- `BasePage.is_element_present` (presence wait). -/
def is_element_present (waitPresent : Locator → Nat → WaitOutcome)
    (locator : Locator) (timeout : Nat) : Except String Bool :=
  match waitPresent locator timeout with
  | WaitOutcome.success _ => Except.ok true
  | WaitOutcome.timeout => Except.ok false
  | WaitOutcome.otherError m => Except.error m

/-- `BasePage.is_element_visible` (visibility wait). -/
def is_element_visible (waitVisible : Locator → Nat → WaitOutcome)
    (locator : Locator) (timeout : Nat) : Except String Bool :=
  match waitVisible locator timeout with
  | WaitOutcome.success _ => Except.ok true
  | WaitOutcome.timeout => Except.ok false
  | WaitOutcome.otherError m => Except.error m

/-- `BasePage.is_element_clickable` (clickability wait). -/
def is_element_clickable (waitClickable : Locator → Nat → WaitOutcome)
    (locator : Locator) (timeout : Nat) : Except String Bool :=
  match waitClickable locator timeout with
  | WaitOutcome.success _ => Except.ok true
  | WaitOutcome.timeout => Except.ok false
  | WaitOutcome.otherError m => Except.error m

/-- C10: for every locator and timeout, each of the three boolean
predicates returns `True` when its wait succeeds and `False` when its
wait times out — a timeout is always converted to a return value and
never escapes to the caller as an exception. -/
theorem boolean_predicates_total (waitP waitV waitC : Locator → Nat → WaitOutcome)
    (locator : Locator) (timeout : Nat) :
    (∀ el, waitP locator timeout = WaitOutcome.success el →
      is_element_present waitP locator timeout = Except.ok true) ∧
    (waitP locator timeout = WaitOutcome.timeout →
      is_element_present waitP locator timeout = Except.ok false) ∧
    (∀ el, waitV locator timeout = WaitOutcome.success el →
      is_element_visible waitV locator timeout = Except.ok true) ∧
    (waitV locator timeout = WaitOutcome.timeout →
      is_element_visible waitV locator timeout = Except.ok false) ∧
    (∀ el, waitC locator timeout = WaitOutcome.success el →
      is_element_clickable waitC locator timeout = Except.ok true) ∧
    (waitC locator timeout = WaitOutcome.timeout →
      is_element_clickable waitC locator timeout = Except.ok false) := by
  refine ⟨?_, ?_, ?_, ?_, ?_, ?_⟩
  · intro el h; simp [is_element_present, h]
  · intro h; simp [is_element_present, h]
  · intro el h; simp [is_element_visible, h]
  · intro h; simp [is_element_visible, h]
  · intro el h; simp [is_element_clickable, h]
  · intro h; simp [is_element_clickable, h]

/-- Witness for C10: a concrete wait that finds the element on the
presence and clickability checks and times out on the visibility check. -/
theorem boolean_predicates_total_witness :
    is_element_present (fun _ _ => WaitOutcome.success ⟨"x", fun _ => none⟩)
        ⟨"name", "username"⟩ 5 = Except.ok true ∧
      is_element_visible (fun _ _ => WaitOutcome.timeout)
        ⟨"name", "username"⟩ 5 = Except.ok false ∧
      is_element_clickable (fun _ _ => WaitOutcome.success ⟨"x", fun _ => none⟩)
        ⟨"name", "username"⟩ 5 = Except.ok true := by
  have h := boolean_predicates_total
    (fun _ _ => WaitOutcome.success ⟨"x", fun _ => none⟩)
    (fun _ _ => WaitOutcome.timeout)
    (fun _ _ => WaitOutcome.success ⟨"x", fun _ => none⟩)
    ⟨"name", "username"⟩ 5
  exact ⟨h.1 ⟨"x", fun _ => none⟩ rfl, h.2.2.2.1 rfl,
    h.2.2.2.2.1 ⟨"x", fun _ => none⟩ rfl⟩

end HudlLogin
